import Mathlib

/-
Shallow embedding of the Aviation-Safety-Network scraper
(src/asn_scraper.py).  Pure parsing functions are translated directly;
the network is modelled as an environment mapping page numbers (listing
pages) and URLs (detail pages) to fetch results; the two `while True`
loops of `scrape_year` are modelled with explicit fuel.
-/

/-! ## Character classes and caption-text scanning

`_get_page_info` runs two `re.search` calls over the caption text:
`(\d+)\s*occurrences` and `showing occurrence\s+(\d+)\s*-\s*(\d+)`.
For these patterns leftmost search with greedy repetition never needs
backtracking inside a digit or whitespace run (a shortened run would
leave a digit where a non-digit is required), so each is embedded as a
left-to-right scan trying a greedy match at every start position. -/

deriving instance DecidableEq for Except

def pySpace (c : Char) : Bool :=
  c == ' ' || c == '\t' || c == '\n' || c == '\x0b' || c == '\x0c' || c == '\r'

def parseDigits (ds : List Char) : Nat :=
  ds.foldl (fun n c => n * 10 + (c.toNat - 48)) 0

def tryTotalAt (cs : List Char) : Option Nat :=
  if (cs.takeWhile Char.isDigit).isEmpty then none
  else if "occurrences".data.isPrefixOf ((cs.dropWhile Char.isDigit).dropWhile pySpace) then
    some (parseDigits (cs.takeWhile Char.isDigit))
  else none

def findTotal : List Char → Option Nat
  | [] => none
  | c :: cs =>
    match tryTotalAt (c :: cs) with
    | some n => some n
    | none => findTotal cs

def dropPfx : List Char → List Char → Option (List Char)
  | [], cs => some cs
  | _ :: _, [] => none
  | p :: ps, c :: cs => if c == p then dropPfx ps cs else none

def tryRangeAt (cs : List Char) : Option (Nat × Nat) :=
  match dropPfx "showing occurrence".data cs with
  | none => none
  | some r0 =>
    if (r0.takeWhile pySpace).isEmpty then none
    else if ((r0.dropWhile pySpace).takeWhile Char.isDigit).isEmpty then none
    else
      match ((r0.dropWhile pySpace).dropWhile Char.isDigit).dropWhile pySpace with
      | '-' :: r3 =>
        if ((r3.dropWhile pySpace).takeWhile Char.isDigit).isEmpty then none
        else
          some (parseDigits ((r0.dropWhile pySpace).takeWhile Char.isDigit),
            parseDigits ((r3.dropWhile pySpace).takeWhile Char.isDigit))
      | _ => none

def findRange : List Char → Option (Nat × Nat)
  | [] => none
  | c :: cs =>
    match tryRangeAt (c :: cs) with
    | some r => some r
    | none => findRange cs

/-! ## DOM models

A listing page is characterised by the features the scraper queries:
the `contentwrapper` div (and the `caption` span inside it, reduced to
its text), and the `hp` table (reduced to, per `tr` row, the `href` of
the row's first `a` element if it has one; the header row included).
A detail page is reduced to its tables, each a list of rows, each row
the list of its `td` cell texts. -/

structure ListingDOM where
  contentwrapper : Option (Option String)
  hpTable : Option (List (Option String))
  deriving Repr, DecidableEq

structure DetailDOM where
  tables : List (List (List String))
  deriving Repr, DecidableEq

/-- The distinct `ValueError` raise sites of the parsing helpers.
`contentNotFound`, `captionNotFound`, `totalNotFound` and
`tableNotFound` are the spec's `ParseError`s (a structural anchor is
missing); `invalidRange` is its `ValidationError`. -/
inductive PageError where
  | contentNotFound
  | captionNotFound
  | totalNotFound
  | invalidRange
  | tableNotFound
  deriving Repr, DecidableEq

def PageError.isParse : PageError → Bool
  | .contentNotFound | .captionNotFound | .totalNotFound | .tableNotFound => true
  | .invalidRange => false

/-- `_get_page_info(soup, year, page)`: extract `(total, start, end)`
from the caption text, falling back to `(1, min 100 total)` when no
explicit range is shown, and validate `1 <= start <= end <= total`. -/
def get_page_info (dom : ListingDOM) (year : Nat) (page : Nat) :
    Except PageError (Nat × Nat × Nat) :=
  match dom.contentwrapper with
  | none => .error .contentNotFound
  | some caption =>
    match caption with
    | none => .error .captionNotFound
    | some text =>
      match findTotal text.data with
      | none => .error .totalNotFound
      | some total_accidents =>
        let (start, stop) :=
          match findRange text.data with
          | some (a, b) => (a, b)
          | none => (1, min 100 total_accidents)
        if 1 ≤ start ∧ start ≤ stop ∧ stop ≤ total_accidents then
          .ok (total_accidents, start, stop)
        else .error .invalidRange

/-- `_get_page_links(soup)`: rows of the `hp` table, header row
skipped, each row contributing `base_url + href` when it has a link. -/
def get_page_links (base : String) (table : Option (List (Option String))) :
    Except PageError (List String) :=
  match table with
  | none => .error .tableNotFound
  | some rows =>
    .ok ((rows.drop 1).filterMap (fun r => r.map (fun href => base ++ href)))

/-! ## Detail-page extraction

The `details` dict of `_extract_accident_details` is embedded as an
association list with the source's key order. -/

abbrev AccidentRecord := List (String × String)

def fieldNames : List String :=
  ["Date", "Time", "Type", "Owner/operator", "Registration", "MSN",
   "Year of manufacture", "Engine model", "Fatalities", "Other fatalities",
   "Aircraft damage", "Category", "Location", "Phase", "Nature",
   "Departure airport", "Destination airport", "Investigating agency",
   "Confidence Rating", "URL"]

def initDetails (url : String) : AccidentRecord :=
  [("Date", ""), ("Time", ""), ("Type", ""), ("Owner/operator", ""),
   ("Registration", ""), ("MSN", ""), ("Year of manufacture", ""),
   ("Engine model", ""), ("Fatalities", ""), ("Other fatalities", ""),
   ("Aircraft damage", ""), ("Category", ""), ("Location", ""),
   ("Phase", ""), ("Nature", ""), ("Departure airport", ""),
   ("Destination airport", ""), ("Investigating agency", ""),
   ("Confidence Rating", ""), ("URL", url)]

/-- `get_text(strip=True)`: whitespace stripped from both ends. -/
def pyStrip (s : String) : String :=
  ⟨((s.data.dropWhile pySpace).reverse.dropWhile pySpace).reverse⟩

/-- Python `.rstrip(':')`: all trailing colons removed. -/
def rstripColon (s : String) : String :=
  ⟨(s.data.reverse.dropWhile (fun c => c == ':')).reverse⟩

/-- `if key in details: details[key] = value`. -/
def setField (details : AccidentRecord) (key value : String) : AccidentRecord :=
  if details.any (fun kv => kv.1 == key) then
    details.map (fun kv => if kv.1 == key then (kv.1, value) else kv)
  else details

/-- One iteration of the row loop of `_extract_accident_details`:
rows with fewer than two cells are skipped; otherwise cell 0's
stripped, colon-stripped text keys cell 1's stripped text. -/
def applyRow (details : AccidentRecord) (cells : List String) : AccidentRecord :=
  match cells with
  | c0 :: c1 :: _ => setField details (rstripColon (pyStrip c0)) (pyStrip c1)
  | _ => details

/-- `_extract_accident_details`, parsing part (its `_make_request` call
is the environment's `detail` field below): scan the rows of the first
table, if any. -/
def extract_accident_details (url : String) (dom : DetailDOM) : AccidentRecord :=
  let details := initDetails url
  match dom.tables with
  | [] => details
  | main_table :: _ => main_table.foldl applyRow details

/-! ## The crawl orchestrator (`scrape_year`) -/

/-- The fetch environment: what `_make_request` returns for the listing
page of a given page number, and for a given detail URL.  `.error ()`
is a `requests` exception surviving the retry loop (the spec's
`FetchError`). -/
structure Env where
  listing : Nat → Except Unit ListingDOM
  detail : String → Except Unit DetailDOM

/-- What one page-level `try` block of `scrape_year` can raise. -/
inductive StepError where
  | fetchFail
  | pageErr (e : PageError)
  | totalMismatch (expected got : Nat)
  | linkCountMismatch (expected got : Nat)
  deriving Repr, DecidableEq

inductive DiscoverOutcome where
  | failed (page : Nat) (err : StepError)
  | done (total : Nat) (pages : Nat) (counts : List Nat)
  | outOfFuel
  deriving Repr, DecidableEq

/-- Phase 1 of `scrape_year` (the analysis `while True` loop): fetch
and analyze each page, check the reported total against the one
captured on the first page, count the page's links, and stop once the
end range reaches the total.  Any exception is caught and the whole
crawl returns an empty DataFrame. -/
def discover (env : Env) (base : String) (year : Nat) :
    Nat → Nat → Option Nat → List Nat → DiscoverOutcome
  | 0, _, _, _ => .outOfFuel
  | fuel + 1, page, total?, counts =>
    match env.listing page with
    | .error _ => .failed page .fetchFail
    | .ok soup =>
      match get_page_info soup year page with
      | .error e => .failed page (.pageErr e)
      | .ok (page_total, _start, stop) =>
        let total_accidents := total?.getD page_total
        if page_total ≠ total_accidents then
          .failed page (.totalMismatch total_accidents page_total)
        else
          match get_page_links base soup.hpTable with
          | .error e => .failed page (.pageErr e)
          | .ok page_links =>
            if stop ≥ total_accidents then
              .done total_accidents page (counts ++ [page_links.length])
            else
              discover env base year fuel (page + 1) (some total_accidents)
                (counts ++ [page_links.length])

/-- The detail fetch plus `_extract_accident_details` on the response:
only the fetch can raise. -/
def fetchAndExtract (env : Env) (url : String) : Except Unit AccidentRecord :=
  (env.detail url).map (extract_accident_details url)

/-- The inner `for` loop over a page's links: a failing detail fetch is
caught, logged and skipped; a successful one appends its record. -/
def processLinks (env : Env) (links : List String) (samples : List AccidentRecord) :
    List AccidentRecord :=
  links.foldl
    (fun acc link =>
      match fetchAndExtract env link with
      | .error _ => acc
      | .ok r => acc ++ [r])
    samples

/-- The detail links whose processing raised (each produces one
`logging.error` line in the source). -/
def detailFailures (env : Env) (links : List String) : List String :=
  links.filter (fun link =>
    match env.detail link with
    | .error _ => true
    | .ok _ => false)

inductive ExtractOutcome where
  | done (pages : Nat) (records : List AccidentRecord)
  | abortedAt (page : Nat) (err : StepError) (records : List AccidentRecord)
  | outOfFuel (records : List AccidentRecord)
  deriving Repr, DecidableEq

/-- The records the final `df.to_csv` after the loop writes: the
accumulated `all_samples`, whether the loop ended normally or broke on
a page-level error. -/
def ExtractOutcome.written : ExtractOutcome → List AccidentRecord
  | .done _ rs => rs
  | .abortedAt _ _ rs => rs
  | .outOfFuel rs => rs

def ExtractOutcome.aborted? : ExtractOutcome → Option (Nat × StepError)
  | .abortedAt p e _ => some (p, e)
  | _ => none

/-- Phase 2 of `scrape_year` (the scraping `while True` loop): re-fetch
and re-analyze each page, re-check the total, check the link count
against `min(100, end - start + 1)`, process the links, and stop when
the end range reaches the total.  A page-level exception `break`s the
loop, keeping the samples gathered so far. -/
def extractLoop (env : Env) (base : String) (year total_accidents : Nat) :
    Nat → Nat → List AccidentRecord → ExtractOutcome
  | 0, _, samples => .outOfFuel samples
  | fuel + 1, page, samples =>
    match env.listing page with
    | .error _ => .abortedAt page .fetchFail samples
    | .ok soup =>
      match get_page_info soup year page with
      | .error e => .abortedAt page (.pageErr e) samples
      | .ok (page_total, start, stop) =>
        if page_total ≠ total_accidents then
          .abortedAt page (.totalMismatch total_accidents page_total) samples
        else
          match get_page_links base soup.hpTable with
          | .error e => .abortedAt page (.pageErr e) samples
          | .ok page_links =>
            let expected_links := min 100 (stop - start + 1)
            if page_links.length ≠ expected_links then
              .abortedAt page (.linkCountMismatch expected_links page_links.length)
                samples
            else
              let samples' := processLinks env page_links samples
              if stop ≥ total_accidents then .done page samples'
              else extractLoop env base year total_accidents fuel (page + 1) samples'

/-- `scrape_year`: discovery, the console confirmation gate, then
extraction; the returned DataFrame (= the final file contents) is empty
when discovery failed or the user declined, and otherwise is whatever
the extraction loop accumulated. -/
def scrape_year (env : Env) (base : String) (year : Nat) (confirm : Bool)
    (fuel : Nat) : List AccidentRecord :=
  match discover env base year fuel 1 none [] with
  | .failed _ _ => []
  | .outOfFuel => []
  | .done total_accidents _pages _counts =>
    if confirm then (extractLoop env base year total_accidents fuel 1 []).written
    else []

/-- Did the detail fetch for this link succeed? -/
def detailOk (env : Env) (link : String) : Bool :=
  match env.detail link with
  | .ok _ => true
  | .error _ => false

/-! ## Concrete crawl environments (used by counterexamples and witnesses) -/

/-- A listing page with the given caption text and one header row
followed by one linked row per href. -/
def listingPage (caption : String) (hrefs : List String) : ListingDOM :=
  ⟨some (some caption), some (none :: hrefs.map some)⟩

/-- Three listing pages all reporting 50 occurrences. -/
def envSteady : Env :=
  ⟨fun page =>
    match page with
    | 1 => .ok (listingPage "showing occurrence 1-2 of 50 occurrences" ["/db/1", "/db/2"])
    | 2 => .ok (listingPage "showing occurrence 3-4 of 50 occurrences" ["/db/3", "/db/4"])
    | 3 => .ok (listingPage "showing occurrence 5-50 of 50 occurrences" ["/db/5", "/db/6"])
    | _ => .error (),
   fun _ => .ok ⟨[]⟩⟩

/-- Like `envSteady`, but the third page reports 48 occurrences: the
catalog drifted mid-crawl. -/
def envDrift : Env :=
  ⟨fun page =>
    match page with
    | 1 => .ok (listingPage "showing occurrence 1-2 of 50 occurrences" ["/db/1", "/db/2"])
    | 2 => .ok (listingPage "showing occurrence 3-4 of 50 occurrences" ["/db/3", "/db/4"])
    | 3 => .ok (listingPage "showing occurrence 5-6 of 48 occurrences" ["/db/5", "/db/6"])
    | _ => .error (),
   fun _ => .ok ⟨[]⟩⟩

/-- Two consistent pages covering 4 occurrences. -/
def envTwoPages : Env :=
  ⟨fun page =>
    match page with
    | 1 => .ok (listingPage "showing occurrence 1-2 of 4 occurrences" ["/db/1", "/db/2"])
    | 2 => .ok (listingPage "showing occurrence 3-4 of 4 occurrences" ["/db/3", "/db/4"])
    | _ => .error (),
   fun _ => .ok ⟨[]⟩⟩

/-- Like `envTwoPages`, but fetching the first detail page fails. -/
def envOneFail : Env :=
  ⟨fun page =>
    match page with
    | 1 => .ok (listingPage "showing occurrence 1-2 of 4 occurrences" ["/db/1", "/db/2"])
    | 2 => .ok (listingPage "showing occurrence 3-4 of 4 occurrences" ["/db/3", "/db/4"])
    | _ => .error (),
   fun url => if url == "b/db/1" then .error () else .ok ⟨[]⟩⟩

/-- Like `envTwoPages`, but the second page lists only one link while
declaring range 3-4: a link-count mismatch visible only to the
extraction phase. -/
def envShort : Env :=
  ⟨fun page =>
    match page with
    | 1 => .ok (listingPage "showing occurrence 1-2 of 4 occurrences" ["/db/1", "/db/2"])
    | 2 => .ok (listingPage "showing occurrence 3-4 of 4 occurrences" ["/db/3"])
    | _ => .error (),
   fun _ => .ok ⟨[]⟩⟩

/-- First page fine, second page's fetch fails. -/
def envAbort : Env :=
  ⟨fun page =>
    match page with
    | 1 => .ok (listingPage "showing occurrence 1-2 of 4 occurrences" ["/db/1", "/db/2"])
    | _ => .error (),
   fun _ => .ok ⟨[]⟩⟩

/-- Every listing page has a content wrapper but no caption span. -/
def envBadCaption : Env :=
  ⟨fun _ => .ok ⟨some none, some []⟩, fun _ => .ok ⟨[]⟩⟩

/-! ## Statement-side definitions

These do not embed source code; they build the inputs the claims
quantify over: the key a detail row addresses, and the two caption-text
shapes of the spec (`"showing occurrence A-B of N occurrences"` and the
bare `"N occurrences"`), with `A`, `B`, `N` rendered in decimal. -/

/-- The field name a row of a detail table addresses, when it has at
least two cells. -/
def rowKey (cells : List String) : Option String :=
  match cells with
  | c0 :: _ :: _ => some (rstripColon (pyStrip c0))
  | _ => none

def digitChar (d : Nat) : Char := Char.ofNat (48 + d)

/-- Decimal rendering of a natural number. -/
def natStr (n : Nat) : List Char :=
  if n = 0 then ['0'] else ((Nat.digits 10 n).map digitChar).reverse

def rangeCaptionData (a b n : Nat) : List Char :=
  "showing occurrence".data ++
    ' ' :: (natStr a ++ '-' ::
      (natStr b ++ ' ' :: 'o' :: 'f' :: ' ' :: (natStr n ++ ' ' :: "occurrences".data)))

/-- The caption text `"showing occurrence A-B of N occurrences"`. -/
def rangeCaption (a b n : Nat) : String := ⟨rangeCaptionData a b n⟩

def bareCaptionData (n : Nat) : List Char := natStr n ++ ' ' :: "occurrences".data

/-- The first-page caption text `"N occurrences"`. -/
def bareCaption (n : Nat) : String := ⟨bareCaptionData n⟩

/-! ## Step lemmas for the two crawl loops -/

theorem discover_fetch_fail {env : Env} {base : String} {year fuel page : Nat}
    (total? : Option Nat) (counts : List Nat)
    (h : env.listing page = .error ()) :
    discover env base year (fuel + 1) page total? counts = .failed page .fetchFail := by
  simp [discover, h]

theorem discover_info_fail {env : Env} {base : String} {year fuel page : Nat}
    (total? : Option Nat) (counts : List Nat) {soup : ListingDOM} {e : PageError}
    (h1 : env.listing page = .ok soup)
    (h2 : get_page_info soup year page = .error e) :
    discover env base year (fuel + 1) page total? counts = .failed page (.pageErr e) := by
  simp [discover, h1, h2]

theorem discover_total_mismatch {env : Env} {base : String} {year fuel page : Nat}
    (t : Nat) (counts : List Nat) {soup : ListingDOM} {pt s e : Nat}
    (h1 : env.listing page = .ok soup)
    (h2 : get_page_info soup year page = .ok (pt, s, e))
    (h3 : pt ≠ t) :
    discover env base year (fuel + 1) page (some t) counts =
      .failed page (.totalMismatch t pt) := by
  simp [discover, h1, h2, h3]

theorem discover_links_fail {env : Env} {base : String} {year fuel page : Nat}
    (total? : Option Nat) (counts : List Nat) {soup : ListingDOM} {pt s e : Nat}
    {err : PageError}
    (h1 : env.listing page = .ok soup)
    (h2 : get_page_info soup year page = .ok (pt, s, e))
    (ht : total?.getD pt = pt)
    (h3 : get_page_links base soup.hpTable = .error err) :
    discover env base year (fuel + 1) page total? counts = .failed page (.pageErr err) := by
  simp [discover, h1, h2, ht, h3]

theorem scrape_year_discovery_failed {env : Env} {base : String} {year fuel : Nat}
    (confirm : Bool) {page : Nat} {err : StepError}
    (h : discover env base year fuel 1 none [] = .failed page err) :
    scrape_year env base year confirm fuel = [] := by
  simp [scrape_year, h]

theorem extract_fetch_fail {env : Env} {base : String} {year total fuel page : Nat}
    (samples : List AccidentRecord)
    (h : env.listing page = .error ()) :
    extractLoop env base year total (fuel + 1) page samples =
      .abortedAt page .fetchFail samples := by
  simp [extractLoop, h]

theorem extract_info_fail {env : Env} {base : String} {year total fuel page : Nat}
    (samples : List AccidentRecord) {soup : ListingDOM} {e : PageError}
    (h1 : env.listing page = .ok soup)
    (h2 : get_page_info soup year page = .error e) :
    extractLoop env base year total (fuel + 1) page samples =
      .abortedAt page (.pageErr e) samples := by
  simp [extractLoop, h1, h2]

theorem extract_total_mismatch {env : Env} {base : String} {year total fuel page : Nat}
    (samples : List AccidentRecord) {soup : ListingDOM} {pt s e : Nat}
    (h1 : env.listing page = .ok soup)
    (h2 : get_page_info soup year page = .ok (pt, s, e))
    (h3 : pt ≠ total) :
    extractLoop env base year total (fuel + 1) page samples =
      .abortedAt page (.totalMismatch total pt) samples := by
  simp [extractLoop, h1, h2, h3]

theorem extract_links_fail {env : Env} {base : String} {year total fuel page : Nat}
    (samples : List AccidentRecord) {soup : ListingDOM} {s e : Nat} {err : PageError}
    (h1 : env.listing page = .ok soup)
    (h2 : get_page_info soup year page = .ok (total, s, e))
    (h3 : get_page_links base soup.hpTable = .error err) :
    extractLoop env base year total (fuel + 1) page samples =
      .abortedAt page (.pageErr err) samples := by
  simp [extractLoop, h1, h2, h3]

theorem extract_linkcount_mismatch {env : Env} {base : String} {year total fuel page : Nat}
    (samples : List AccidentRecord) {soup : ListingDOM} {s e : Nat} {links : List String}
    (h1 : env.listing page = .ok soup)
    (h2 : get_page_info soup year page = .ok (total, s, e))
    (h3 : get_page_links base soup.hpTable = .ok links)
    (h4 : links.length ≠ min 100 (e - s + 1)) :
    extractLoop env base year total (fuel + 1) page samples =
      .abortedAt page (.linkCountMismatch (min 100 (e - s + 1)) links.length) samples := by
  simp [extractLoop, h1, h2, h3, h4]

theorem extract_step_ok {env : Env} {base : String} {year total fuel page : Nat}
    (samples : List AccidentRecord) {soup : ListingDOM} {s e : Nat} {links : List String}
    (h1 : env.listing page = .ok soup)
    (h2 : get_page_info soup year page = .ok (total, s, e))
    (h3 : get_page_links base soup.hpTable = .ok links)
    (h4 : links.length = min 100 (e - s + 1)) :
    extractLoop env base year total (fuel + 1) page samples =
      (if e ≥ total then .done page (processLinks env links samples)
       else extractLoop env base year total fuel (page + 1)
         (processLinks env links samples)) := by
  simp [extractLoop, h1, h2, h3, h4]

/-! ## Characterising the per-page detail loop -/

theorem processLinks_eq_filterMap (env : Env) (links : List String)
    (samples : List AccidentRecord) :
    processLinks env links samples =
      samples ++ links.filterMap (fun link => (fetchAndExtract env link).toOption) := by
  induction links generalizing samples with
  | nil => simp [processLinks]
  | cons l ls ih =>
    have hstep : processLinks env (l :: ls) samples =
        processLinks env ls
          (match fetchAndExtract env l with
           | .error _ => samples
           | .ok r => samples ++ [r]) := rfl
    rw [hstep]
    cases h : fetchAndExtract env l with
    | error e => simp [h, ih, List.filterMap_cons, Except.toOption]
    | ok r => simp [h, ih, List.filterMap_cons, Except.toOption]

theorem processLinks_length (env : Env) (links : List String)
    (samples : List AccidentRecord) :
    (processLinks env links samples).length =
      samples.length + links.countP (fun link => detailOk env link) := by
  induction links generalizing samples with
  | nil => simp [processLinks]
  | cons l ls ih =>
    have hstep : processLinks env (l :: ls) samples =
        processLinks env ls
          (match fetchAndExtract env l with
           | .error _ => samples
           | .ok r => samples ++ [r]) := rfl
    rw [hstep]
    cases h : env.detail l with
    | error e =>
      have hfe : fetchAndExtract env l = .error e := by
        simp [fetchAndExtract, h, Except.map]
      have hok : detailOk env l = false := by simp [detailOk, h]
      rw [hfe, ih]
      simp [List.countP_cons, hok]
    | ok d =>
      have hfe : fetchAndExtract env l = .ok (extract_accident_details l d) := by
        simp [fetchAndExtract, h, Except.map]
      have hok : detailOk env l = true := by simp [detailOk, h]
      rw [hfe, ih]
      simp only [List.countP_cons, hok, List.length_append, List.length_cons,
        List.length_nil, if_pos]
      omega

theorem countP_eq_length_of_all {α : Type} (p : α → Bool) (l : List α)
    (h : ∀ a ∈ l, p a = true) : l.countP p = l.length := by
  induction l with
  | nil => simp
  | cons a l ih =>
    rw [List.countP_cons, h a (by simp), ih (fun a ha => h a (by simp [ha]))]
    simp

theorem detailFailures_of_all_ok (env : Env) (links : List String)
    (h : ∀ l ∈ links, detailOk env l = true) :
    detailFailures env links = [] := by
  induction links with
  | nil => rfl
  | cons l ls ih =>
    have hl := h l (by simp)
    unfold detailFailures at *
    cases hd : env.detail l with
    | error e => rw [detailOk, hd] at hl; cases hl
    | ok d =>
      simp only [List.filter_cons, hd]
      exact ih (fun a ha => h a (by simp [ha]))

/-! ## Lookup lemmas for the details association list -/

theorem lookup_cons_self {β : Type} (k : String) (b : β) (es : List (String × β)) :
    List.lookup k ((k, b) :: es) = some b := by simp [List.lookup]

theorem lookup_cons_ne {β : Type} (a k : String) (b : β) (es : List (String × β))
    (h : (a == k) = false) : List.lookup a ((k, b) :: es) = List.lookup a es := by
  simp [List.lookup, h]

theorem lookup_update_ne (d : AccidentRecord) (key name v : String) (h : name ≠ key) :
    (d.map fun kv => if kv.1 == key then (kv.1, v) else kv).lookup name =
      d.lookup name := by
  induction d with
  | nil => rfl
  | cons kv rest ih =>
    obtain ⟨k, b⟩ := kv
    simp only [List.map_cons]
    cases hk : k == key with
    | true =>
      have hkk : k = key := eq_of_beq hk
      have hqb : (name == k) = false := by
        rw [beq_eq_false_iff_ne, hkk]; exact h
      simp only [hk, if_true]
      rw [lookup_cons_ne name k v _ hqb, lookup_cons_ne name k b rest hqb]
      exact ih
    | false =>
      simp only [hk, Bool.false_eq_true, if_false]
      by_cases hq : name = k
      · subst hq
        rw [lookup_cons_self, lookup_cons_self]
      · have hqb : (name == k) = false := by rw [beq_eq_false_iff_ne]; exact hq
        rw [lookup_cons_ne name k b _ hqb, lookup_cons_ne name k b rest hqb]
        exact ih

theorem lookup_update_self (d : AccidentRecord) (key v : String)
    (h : d.any (fun kv => kv.1 == key) = true) :
    (d.map fun kv => if kv.1 == key then (kv.1, v) else kv).lookup key = some v := by
  induction d with
  | nil => cases h
  | cons kv rest ih =>
    obtain ⟨k, b⟩ := kv
    simp only [List.map_cons]
    cases hk : k == key with
    | true =>
      have hkk : k = key := eq_of_beq hk
      subst hkk
      simp only [hk, if_true]
      rw [lookup_cons_self]
    | false =>
      simp only [hk, Bool.false_eq_true, if_false]
      have h' : rest.any (fun kv => kv.1 == key) = true := by
        simp only [List.any_cons, hk, Bool.false_or] at h
        exact h
      have hqb : (key == k) = false := by
        rw [beq_eq_false_iff_ne]
        intro he
        rw [beq_eq_false_iff_ne] at hk
        exact hk he.symm
      rw [lookup_cons_ne key k b _ hqb]
      exact ih h'

theorem map_update_keys (d : AccidentRecord) (key v : String) :
    ((d.map fun kv => if kv.1 == key then (kv.1, v) else kv).map Prod.fst) =
      d.map Prod.fst := by
  induction d with
  | nil => rfl
  | cons kv rest ih =>
    obtain ⟨k, b⟩ := kv
    simp only [List.map_cons]
    cases hk : k == key with
    | true => simp only [hk, if_true]; rw [ih]
    | false => simp only [hk, Bool.false_eq_true, if_false]; rw [ih]

theorem setField_lookup_ne (d : AccidentRecord) (key name v : String) (h : name ≠ key) :
    (setField d key v).lookup name = d.lookup name := by
  unfold setField
  split
  · exact lookup_update_ne d key name v h
  · rfl

theorem setField_lookup_self (d : AccidentRecord) (key v : String)
    (h : d.any (fun kv => kv.1 == key) = true) :
    (setField d key v).lookup key = some v := by
  unfold setField
  rw [if_pos h]
  exact lookup_update_self d key v h

theorem setField_keys (d : AccidentRecord) (key v : String) :
    (setField d key v).map Prod.fst = d.map Prod.fst := by
  unfold setField
  split
  · exact map_update_keys d key v
  · rfl

theorem setField_unknown (d : AccidentRecord) (key v : String)
    (h : d.any (fun kv => kv.1 == key) = false) :
    setField d key v = d := by
  unfold setField
  rw [h]
  simp

theorem applyRow_keys (d : AccidentRecord) (cells : List String) :
    (applyRow d cells).map Prod.fst = d.map Prod.fst := by
  cases cells with
  | nil => rfl
  | cons c0 rest =>
    cases rest with
    | nil => rfl
    | cons c1 rest2 => exact setField_keys d (rstripColon (pyStrip c0)) (pyStrip c1)

theorem applyRow_lookup_ne (d : AccidentRecord) (cells : List String) (name : String)
    (h : rowKey cells ≠ some name) :
    (applyRow d cells).lookup name = d.lookup name := by
  cases cells with
  | nil => rfl
  | cons c0 rest =>
    cases rest with
    | nil => rfl
    | cons c1 rest2 =>
      have hne : name ≠ rstripColon (pyStrip c0) := by
        intro he; exact h (by simp [rowKey, he])
      exact setField_lookup_ne d (rstripColon (pyStrip c0)) name (pyStrip c1) hne

theorem foldl_applyRow_keys (rows : List (List String)) (d : AccidentRecord) :
    (rows.foldl applyRow d).map Prod.fst = d.map Prod.fst := by
  induction rows generalizing d with
  | nil => rfl
  | cons row rows ih => rw [List.foldl_cons, ih, applyRow_keys]

theorem foldl_applyRow_lookup (rows : List (List String)) (d : AccidentRecord)
    (name : String) (h : ∀ cells ∈ rows, rowKey cells ≠ some name) :
    (rows.foldl applyRow d).lookup name = d.lookup name := by
  induction rows generalizing d with
  | nil => rfl
  | cons row rows ih =>
    rw [List.foldl_cons, ih _ (fun c hc => h c (by simp [hc])),
      applyRow_lookup_ne d row name (h row (by simp))]

theorem extract_lookup_of_not_keyed (url : String) (dom : DetailDOM) (name : String)
    (h : ∀ cells ∈ dom.tables.head?.getD [], rowKey cells ≠ some name) :
    (extract_accident_details url dom).lookup name = (initDetails url).lookup name := by
  cases htab : dom.tables with
  | nil => simp [extract_accident_details, htab]
  | cons t rest =>
    have ht : ∀ cells ∈ t, rowKey cells ≠ some name := by
      rw [htab] at h
      exact h
    simp only [extract_accident_details, htab]
    exact foldl_applyRow_lookup t (initDetails url) name ht

theorem extract_keys (url : String) (dom : DetailDOM) :
    (extract_accident_details url dom).map Prod.fst = fieldNames := by
  cases htab : dom.tables with
  | nil => simp [extract_accident_details, htab]; rfl
  | cons t rest =>
    simp only [extract_accident_details, htab]
    rw [foldl_applyRow_keys]
    rfl

theorem initDetails_lookup_url (url : String) :
    (initDetails url).lookup "URL" = some url := rfl

theorem initDetails_lookup_data (url name : String) (h1 : name ∈ fieldNames)
    (h2 : name ≠ "URL") : (initDetails url).lookup name = some "" := by
  simp only [fieldNames, List.mem_cons, List.not_mem_nil, or_false] at h1
  rcases h1 with rfl|rfl|rfl|rfl|rfl|rfl|rfl|rfl|rfl|rfl|rfl|rfl|rfl|rfl|rfl|rfl|rfl|rfl|rfl|rfl
  all_goals first | rfl | exact absurd rfl h2

/-! ## Character-class and run lemmas -/

theorem space_not_digit (c : Char) (h : pySpace c = true) : c.isDigit = false := by
  unfold pySpace at h
  simp only [Bool.or_eq_true, beq_iff_eq] at h
  rcases h with (((((h | h) | h) | h) | h) | h) <;> subst h <;> decide

theorem digit_not_space (c : Char) (h : c.isDigit = true) : pySpace c = false := by
  cases hs : pySpace c
  · rfl
  · rw [space_not_digit c hs] at h; cases h

theorem digit_ne_s (c : Char) (h : c.isDigit = true) : (c == 's') = false := by
  cases hc : c == 's'
  · rfl
  · have : c = 's' := eq_of_beq hc
    subst this
    cases h

theorem takeWhile_append_of_all (p : Char → Bool) (xs ys : List Char)
    (h : ∀ x ∈ xs, p x = true) :
    (xs ++ ys).takeWhile p = xs ++ ys.takeWhile p := by
  induction xs with
  | nil => rfl
  | cons x xs ih =>
    rw [List.cons_append, List.takeWhile_cons, h x (by simp), if_pos rfl,
      List.cons_append, ih (fun a ha => h a (by simp [ha]))]

theorem dropWhile_append_of_all (p : Char → Bool) (xs ys : List Char)
    (h : ∀ x ∈ xs, p x = true) :
    (xs ++ ys).dropWhile p = ys.dropWhile p := by
  induction xs with
  | nil => rfl
  | cons x xs ih =>
    rw [List.cons_append, List.dropWhile_cons, if_pos (h x (by simp)),
      ih (fun a ha => h a (by simp [ha]))]

theorem takeWhile_nil_of_head (p : Char → Bool) (x : Char) (xs : List Char)
    (h : p x = false) : (x :: xs).takeWhile p = [] := by
  rw [List.takeWhile_cons, h]
  rfl

theorem dropWhile_cons_of_neg (p : Char → Bool) (x : Char) (xs : List Char)
    (h : p x = false) : (x :: xs).dropWhile p = x :: xs := by
  rw [List.dropWhile_cons, if_neg]
  simp [h]

theorem dropWhile_eq_self_of_takeWhile_nil (p : Char → Bool) (l : List Char)
    (h : l.takeWhile p = []) : l.dropWhile p = l := by
  cases l with
  | nil => rfl
  | cons c cs =>
    cases hc : p c with
    | true => rw [List.takeWhile_cons, hc] at h; cases h
    | false => exact dropWhile_cons_of_neg p c cs hc

/-! ## Decimal rendering facts -/

theorem digitChar_isDigit (d : Nat) (h : d < 10) : (digitChar d).isDigit = true := by
  interval_cases d <;> decide

theorem digitChar_toNat (d : Nat) (h : d < 10) : (digitChar d).toNat = 48 + d := by
  interval_cases d <;> decide

theorem natStr_all_digits (n : Nat) : ∀ c ∈ natStr n, c.isDigit = true := by
  intro c hc
  unfold natStr at hc
  by_cases hn : n = 0
  · rw [if_pos hn] at hc
    simp at hc
    subst hc
    decide
  · rw [if_neg hn] at hc
    rw [List.mem_reverse, List.mem_map] at hc
    obtain ⟨d, hd, rfl⟩ := hc
    exact digitChar_isDigit d (Nat.digits_lt_base (by norm_num) hd)

theorem natStr_ne_nil (n : Nat) : natStr n ≠ [] := by
  unfold natStr
  by_cases hn : n = 0
  · rw [if_pos hn]; simp
  · rw [if_neg hn]
    simp only [ne_eq, List.reverse_eq_nil_iff, List.map_eq_nil_iff]
    exact Nat.digits_ne_nil_iff_ne_zero.mpr hn

theorem foldr_digits_ofDigits (L : List Nat) (h : ∀ d ∈ L, d < 10) :
    L.foldr (fun d acc => acc * 10 + ((digitChar d).toNat - 48)) 0 =
      Nat.ofDigits 10 L := by
  induction L with
  | nil => simp [Nat.ofDigits]
  | cons d L ih =>
    rw [List.foldr_cons, ih (fun a ha => h a (by simp [ha])), Nat.ofDigits_cons,
      digitChar_toNat d (h d (by simp))]
    omega

theorem parseDigits_natStr (n : Nat) : parseDigits (natStr n) = n := by
  unfold natStr
  by_cases hn : n = 0
  · rw [if_pos hn, hn]; decide
  · rw [if_neg hn]
    unfold parseDigits
    rw [List.foldl_reverse, List.foldr_map]
    have := foldr_digits_ofDigits (Nat.digits 10 n)
      (fun d hd => Nat.digits_lt_base (by norm_num) hd)
    rw [this, Nat.ofDigits_digits]

/-! ## Scanner lemmas for the total regex -/

theorem tryTotalAt_nondigit (c : Char) (cs : List Char) (h : c.isDigit = false) :
    tryTotalAt (c :: cs) = none := by
  unfold tryTotalAt
  rw [takeWhile_nil_of_head Char.isDigit c cs h]
  rfl

theorem findTotal_cons_nondigit (c : Char) (cs : List Char) (h : c.isDigit = false) :
    findTotal (c :: cs) = findTotal cs := by
  rw [findTotal, tryTotalAt_nondigit c cs h]

theorem findTotal_append_nondigits (xs ys : List Char)
    (h : ∀ c ∈ xs, c.isDigit = false) : findTotal (xs ++ ys) = findTotal ys := by
  induction xs with
  | nil => rfl
  | cons c xs ih =>
    rw [List.cons_append, findTotal_cons_nondigit c _ (h c (by simp)),
      ih (fun a ha => h a (by simp [ha]))]

theorem tryTotalAt_digits (ds rest : List Char) (hne : ds ≠ [])
    (hd : ∀ c ∈ ds, c.isDigit = true) (hrest : rest.takeWhile Char.isDigit = []) :
    tryTotalAt (ds ++ rest) =
      if "occurrences".data.isPrefixOf (rest.dropWhile pySpace) then
        some (parseDigits ds)
      else none := by
  unfold tryTotalAt
  have h1 : (ds ++ rest).takeWhile Char.isDigit = ds := by
    rw [takeWhile_append_of_all Char.isDigit ds rest hd, hrest, List.append_nil]
  have h2 : (ds ++ rest).dropWhile Char.isDigit = rest := by
    rw [dropWhile_append_of_all Char.isDigit ds rest hd]
    exact dropWhile_eq_self_of_takeWhile_nil Char.isDigit rest hrest
  have hie : ds.isEmpty = false := by
    cases ds
    · exact absurd rfl hne
    · rfl
  rw [h1, h2, hie]
  simp

theorem findTotal_digits_fail (ds rest : List Char) (hd : ∀ c ∈ ds, c.isDigit = true)
    (hrest : rest.takeWhile Char.isDigit = [])
    (hocc : "occurrences".data.isPrefixOf (rest.dropWhile pySpace) = false) :
    findTotal (ds ++ rest) = findTotal rest := by
  induction ds with
  | nil => rfl
  | cons c ds ih =>
    have htt : tryTotalAt (c :: (ds ++ rest)) = none := by
      rw [← List.cons_append,
        tryTotalAt_digits (c :: ds) rest (by simp) hd hrest, hocc]
      simp
    rw [List.cons_append, findTotal, htt]
    exact ih (fun a ha => hd a (by simp [ha]))

theorem findTotal_digits_hit (ds rest : List Char) (hne : ds ≠ [])
    (hd : ∀ c ∈ ds, c.isDigit = true) (hrest : rest.takeWhile Char.isDigit = [])
    (hocc : "occurrences".data.isPrefixOf (rest.dropWhile pySpace) = true) :
    findTotal (ds ++ rest) = some (parseDigits ds) := by
  obtain ⟨c, ds', rfl⟩ := List.exists_cons_of_ne_nil hne
  have htt : tryTotalAt (c :: (ds' ++ rest)) = some (parseDigits (c :: ds')) := by
    rw [← List.cons_append,
      tryTotalAt_digits (c :: ds') rest (by simp) hd hrest, hocc]
    simp
  rw [List.cons_append, findTotal, htt]

/-! ## Scanner lemmas for the range regex -/

theorem dropPfx_append (p rest : List Char) : dropPfx p (p ++ rest) = some rest := by
  induction p with
  | nil => rfl
  | cons c p ih => simp [dropPfx, ih]

theorem tryRangeAt_not_s (c : Char) (cs : List Char) (h : (c == 's') = false) :
    tryRangeAt (c :: cs) = none := by
  have hnone : dropPfx "showing occurrence".data (c :: cs) = none := by
    rw [show "showing occurrence".data = 's' :: "howing occurrence".data from rfl]
    simp [dropPfx, h]
  simp [tryRangeAt, hnone]

theorem findRange_cons_not_s (c : Char) (cs : List Char) (h : (c == 's') = false) :
    findRange (c :: cs) = findRange cs := by
  rw [findRange, tryRangeAt_not_s c cs h]

theorem findRange_append_not_s (xs ys : List Char)
    (h : ∀ c ∈ xs, (c == 's') = false) : findRange (xs ++ ys) = findRange ys := by
  induction xs with
  | nil => rfl
  | cons c xs ih =>
    rw [List.cons_append, findRange_cons_not_s c _ (h c (by simp)),
      ih (fun a ha => h a (by simp [ha]))]

/-! ## The two caption shapes, parsed -/

theorem tryRangeAt_caption (a b n : Nat) :
    tryRangeAt (rangeCaptionData a b n) = some (a, b) := by
  obtain ⟨ca, da, ha⟩ := List.exists_cons_of_ne_nil (natStr_ne_nil a)
  obtain ⟨cb, db, hb⟩ := List.exists_cons_of_ne_nil (natStr_ne_nil b)
  have hda : ca.isDigit = true := natStr_all_digits a ca (by rw [ha]; simp)
  have hdb : cb.isDigit = true := natStr_all_digits b cb (by rw [hb]; simp)
  have cond1 : (((' ' :: (natStr a ++ '-' :: (natStr b ++ ' ' :: 'o' :: 'f' :: ' ' ::
      (natStr n ++ ' ' :: "occurrences".data)))).takeWhile pySpace).isEmpty) = false := by
    rw [List.takeWhile_cons, if_pos (by decide)]
    rfl
  have r1eq : (' ' :: (natStr a ++ '-' :: (natStr b ++ ' ' :: 'o' :: 'f' :: ' ' ::
      (natStr n ++ ' ' :: "occurrences".data)))).dropWhile pySpace =
      natStr a ++ '-' :: (natStr b ++ ' ' :: 'o' :: 'f' :: ' ' ::
      (natStr n ++ ' ' :: "occurrences".data)) := by
    rw [List.dropWhile_cons, if_pos (by decide)]
    rw [ha, List.cons_append]
    exact dropWhile_cons_of_neg pySpace ca _ (digit_not_space ca hda)
  have ds1eq : (natStr a ++ '-' :: (natStr b ++ ' ' :: 'o' :: 'f' :: ' ' ::
      (natStr n ++ ' ' :: "occurrences".data))).takeWhile Char.isDigit = natStr a := by
    rw [takeWhile_append_of_all Char.isDigit _ _ (natStr_all_digits a),
      takeWhile_nil_of_head Char.isDigit '-' _ (by decide), List.append_nil]
  have cond2 : (natStr a).isEmpty = false := by
    rw [ha]; rfl
  have r2eq : ((natStr a ++ '-' :: (natStr b ++ ' ' :: 'o' :: 'f' :: ' ' ::
      (natStr n ++ ' ' :: "occurrences".data))).dropWhile Char.isDigit).dropWhile pySpace =
      '-' :: (natStr b ++ ' ' :: 'o' :: 'f' :: ' ' ::
      (natStr n ++ ' ' :: "occurrences".data)) := by
    rw [dropWhile_append_of_all Char.isDigit _ _ (natStr_all_digits a),
      dropWhile_cons_of_neg Char.isDigit '-' _ (by decide),
      dropWhile_cons_of_neg pySpace '-' _ (by decide)]
  have r4eq : (natStr b ++ ' ' :: 'o' :: 'f' :: ' ' ::
      (natStr n ++ ' ' :: "occurrences".data)).dropWhile pySpace =
      natStr b ++ ' ' :: 'o' :: 'f' :: ' ' :: (natStr n ++ ' ' :: "occurrences".data) := by
    rw [hb, List.cons_append]
    exact dropWhile_cons_of_neg pySpace cb _ (digit_not_space cb hdb)
  have ds2eq : (natStr b ++ ' ' :: 'o' :: 'f' :: ' ' ::
      (natStr n ++ ' ' :: "occurrences".data)).takeWhile Char.isDigit = natStr b := by
    rw [takeWhile_append_of_all Char.isDigit _ _ (natStr_all_digits b),
      takeWhile_nil_of_head Char.isDigit ' ' _ (by decide), List.append_nil]
  have cond3 : (natStr b).isEmpty = false := by
    rw [hb]; rfl
  unfold tryRangeAt rangeCaptionData
  rw [dropPfx_append]
  simp only [cond1, r1eq, ds1eq, cond2, r2eq, r4eq, ds2eq, cond3, Bool.false_eq_true,
    if_false, parseDigits_natStr]

theorem findRange_caption (a b n : Nat) :
    findRange (rangeCaptionData a b n) = some (a, b) := by
  have hcons : rangeCaptionData a b n = 's' :: ("howing occurrence".data ++
      ' ' :: (natStr a ++ '-' :: (natStr b ++ ' ' :: 'o' :: 'f' :: ' ' ::
      (natStr n ++ ' ' :: "occurrences".data)))) := rfl
  have := tryRangeAt_caption a b n
  rw [hcons] at this ⊢
  rw [findRange, this]

theorem findTotal_caption (a b n : Nat) :
    findTotal (rangeCaptionData a b n) = some n := by
  unfold rangeCaptionData
  rw [findTotal_append_nondigits "showing occurrence".data _ (by decide),
    findTotal_cons_nondigit ' ' _ (by decide)]
  rw [findTotal_digits_fail (natStr a) _ (natStr_all_digits a)
    (takeWhile_nil_of_head Char.isDigit '-' _ (by decide))
    (by rw [dropWhile_cons_of_neg pySpace '-' _ (by decide)]
        rfl)]
  rw [findTotal_cons_nondigit '-' _ (by decide)]
  rw [findTotal_digits_fail (natStr b) _ (natStr_all_digits b)
    (takeWhile_nil_of_head Char.isDigit ' ' _ (by decide))
    (by rw [List.dropWhile_cons, if_pos (by decide),
          dropWhile_cons_of_neg pySpace 'o' _ (by decide)]
        rfl)]
  rw [findTotal_cons_nondigit ' ' _ (by decide),
    findTotal_cons_nondigit 'o' _ (by decide),
    findTotal_cons_nondigit 'f' _ (by decide),
    findTotal_cons_nondigit ' ' _ (by decide)]
  rw [findTotal_digits_hit (natStr n) _ (natStr_ne_nil n) (natStr_all_digits n)
    (takeWhile_nil_of_head Char.isDigit ' ' _ (by decide))
    (by rw [List.dropWhile_cons, if_pos (by decide),
          dropWhile_cons_of_neg pySpace 'o' _ (by decide)]
        decide)]
  rw [parseDigits_natStr]

theorem findTotal_bare (n : Nat) : findTotal (bareCaptionData n) = some n := by
  unfold bareCaptionData
  rw [findTotal_digits_hit (natStr n) _ (natStr_ne_nil n) (natStr_all_digits n)
    (takeWhile_nil_of_head Char.isDigit ' ' _ (by decide))
    (by rw [List.dropWhile_cons, if_pos (by decide),
          dropWhile_cons_of_neg pySpace 'o' _ (by decide)]
        decide)]
  rw [parseDigits_natStr]

theorem findRange_bare (n : Nat) : findRange (bareCaptionData n) = none := by
  unfold bareCaptionData
  rw [findRange_append_not_s (natStr n) _
    (fun c hc => digit_ne_s c (natStr_all_digits n c hc))]
  decide

/-! ## Page analysis on the two caption shapes -/

theorem get_page_info_rangeCaption (tbl : Option (List (Option String)))
    (year page a b n : Nat) (h1 : 1 ≤ a) (h2 : a ≤ b) (h3 : b ≤ n) :
    get_page_info ⟨some (some (rangeCaption a b n)), tbl⟩ year page = .ok (n, a, b) := by
  unfold get_page_info
  simp only [show (rangeCaption a b n).data = rangeCaptionData a b n from rfl,
    findTotal_caption, findRange_caption]
  rw [if_pos ⟨h1, h2, h3⟩]

theorem get_page_info_bareCaption (tbl : Option (List (Option String)))
    (year page n : Nat) (h : 1 ≤ n) :
    get_page_info ⟨some (some (bareCaption n)), tbl⟩ year page =
      .ok (n, 1, min 100 n) := by
  unfold get_page_info
  simp only [show (bareCaption n).data = bareCaptionData n from rfl,
    findTotal_bare, findRange_bare]
  rw [if_pos ⟨le_refl 1, Nat.le_min.mpr ⟨by norm_num, h⟩, Nat.min_le_right 100 n⟩]

theorem get_page_info_no_content (tbl : Option (List (Option String)))
    (year page : Nat) :
    get_page_info ⟨none, tbl⟩ year page = .error .contentNotFound := rfl

theorem get_page_info_no_caption (tbl : Option (List (Option String)))
    (year page : Nat) :
    get_page_info ⟨some none, tbl⟩ year page = .error .captionNotFound := rfl

theorem get_page_info_no_total (tbl : Option (List (Option String)))
    (year page : Nat) (text : String) (h : findTotal text.data = none) :
    get_page_info ⟨some (some text), tbl⟩ year page = .error .totalNotFound := by
  simp only [get_page_info, h]

theorem get_page_info_invalid (tbl : Option (List (Option String)))
    (year page : Nat) (text : String) (n a b : Nat)
    (htotal : findTotal text.data = some n)
    (hr : findRange text.data = some (a, b) ∨
      (findRange text.data = none ∧ a = 1 ∧ b = min 100 n))
    (hbad : ¬ (1 ≤ a ∧ a ≤ b ∧ b ≤ n)) :
    get_page_info ⟨some (some text), tbl⟩ year page = .error .invalidRange := by
  rcases hr with hr | ⟨hr, rfl, rfl⟩
  · simp only [get_page_info, htotal, hr]
    rw [if_neg hbad]
  · simp only [get_page_info, htotal, hr]
    rw [if_neg hbad]

theorem detailFailures_append (env : Env) (xs ys : List String) :
    detailFailures env (xs ++ ys) = detailFailures env xs ++ detailFailures env ys := by
  unfold detailFailures
  exact List.filter_append xs ys

theorem detailFailures_cons_fail (env : Env) (l : String) (ls : List String)
    (h : detailOk env l = false) :
    detailFailures env (l :: ls) = l :: detailFailures env ls := by
  cases hd : env.detail l with
  | error e =>
    unfold detailFailures
    rw [List.filter_cons]
    simp only [hd]
    rfl
  | ok d =>
    unfold detailOk at h
    rw [hd] at h
    cases h

/-! ## Claims -/

/-- C10: the result of `_get_page_info` depends only on the page DOM:
the `year` and `page` arguments it receives never influence the
returned `(total, start, end)` triple or the error raised, so in
particular the requested page number is never cross-checked against the
range the page claims to cover. -/
theorem C10_page_info_ignores_year_page (dom : ListingDOM) (y1 p1 y2 p2 : Nat) :
    get_page_info dom y1 p1 = get_page_info dom y2 p2 := rfl

/-- C1: within one crawl, every fetched listing page must report the
total captured from the first page.  During discovery a page reporting
a different total fails the crawl at that page with a total-mismatch
error, and the extraction phase applies the same constancy check again
on every page.  Concretely, a discovery sequence reporting totals
[50, 50, 50] proceeds to completion, while [50, 50, 48] aborts at the
third page with the mismatch error, as does extraction over the same
drifted catalog. -/
theorem C1_total_constancy :
    (∀ (env : Env) (base : String) (year fuel page t : Nat) (counts : List Nat)
        (soup : ListingDOM) (pt s e : Nat),
      env.listing page = .ok soup →
      get_page_info soup year page = .ok (pt, s, e) →
      pt ≠ t →
      discover env base year (fuel + 1) page (some t) counts =
        .failed page (.totalMismatch t pt)) ∧
    (∀ (env : Env) (base : String) (year total fuel page : Nat)
        (samples : List AccidentRecord) (soup : ListingDOM) (pt s e : Nat),
      env.listing page = .ok soup →
      get_page_info soup year page = .ok (pt, s, e) →
      pt ≠ total →
      extractLoop env base year total (fuel + 1) page samples =
        .abortedAt page (.totalMismatch total pt) samples) ∧
    discover envSteady "b" 2024 10 1 none [] = .done 50 3 [2, 2, 2] ∧
    discover envDrift "b" 2024 10 1 none [] = .failed 3 (.totalMismatch 50 48) ∧
    (extractLoop envDrift "b" 2024 50 10 1 []).aborted? =
      some (3, .totalMismatch 50 48) :=
  ⟨fun _ _ _ _ _ t counts _ _ _ _ h1 h2 h3 =>
      discover_total_mismatch t counts h1 h2 h3,
   fun _ _ _ _ _ _ samples _ _ _ _ h1 h2 h3 =>
      extract_total_mismatch samples h1 h2 h3,
   by decide, by decide, by decide⟩

/-- Witness for C1: the general discovery and extraction mismatch
clauses applied at page 3 of the drifted catalog (reported total 48
against captured total 50). -/
theorem C1_total_constancy_witness :
    discover envDrift "b" 2024 8 3 (some 50) [2, 2] =
      .failed 3 (.totalMismatch 50 48) ∧
    extractLoop envDrift "b" 2024 50 8 3 [] =
      .abortedAt 3 (.totalMismatch 50 48) [] :=
  ⟨C1_total_constancy.1 envDrift "b" 2024 7 3 50 [2, 2]
      (listingPage "showing occurrence 5-6 of 48 occurrences" ["/db/5", "/db/6"])
      48 5 6 (by decide) (by decide) (by decide),
   C1_total_constancy.2.1 envDrift "b" 2024 50 7 3 []
      (listingPage "showing occurrence 5-6 of 48 occurrences" ["/db/5", "/db/6"])
      48 5 6 (by decide) (by decide) (by decide)⟩

/-- C4: during extraction, a page whose extracted link count differs
from min(100, end - start + 1) aborts the whole crawl at that page
with a link-count-mismatch error; when the counts match, the loop
appends the page's detail records and proceeds, and the per-page
processing serially fetches and extracts each link in order, appending
one record per successful fetch. -/
theorem C4_link_count_check :
    (∀ (env : Env) (base : String) (year total fuel page : Nat)
        (samples : List AccidentRecord) (soup : ListingDOM) (s e : Nat)
        (links : List String),
      env.listing page = .ok soup →
      get_page_info soup year page = .ok (total, s, e) →
      get_page_links base soup.hpTable = .ok links →
      links.length ≠ min 100 (e - s + 1) →
      extractLoop env base year total (fuel + 1) page samples =
        .abortedAt page (.linkCountMismatch (min 100 (e - s + 1)) links.length)
          samples) ∧
    (∀ (env : Env) (base : String) (year total fuel page : Nat)
        (samples : List AccidentRecord) (soup : ListingDOM) (s e : Nat)
        (links : List String),
      env.listing page = .ok soup →
      get_page_info soup year page = .ok (total, s, e) →
      get_page_links base soup.hpTable = .ok links →
      links.length = min 100 (e - s + 1) →
      extractLoop env base year total (fuel + 1) page samples =
        (if e ≥ total then .done page (processLinks env links samples)
         else extractLoop env base year total fuel (page + 1)
           (processLinks env links samples))) ∧
    (∀ (env : Env) (links : List String) (samples : List AccidentRecord),
      processLinks env links samples =
        samples ++ links.filterMap (fun link => (fetchAndExtract env link).toOption)) :=
  ⟨fun _ _ _ _ _ _ samples _ _ _ _ h1 h2 h3 h4 =>
      extract_linkcount_mismatch samples h1 h2 h3 h4,
   fun _ _ _ _ _ _ samples _ _ _ _ h1 h2 h3 h4 =>
      extract_step_ok samples h1 h2 h3 h4,
   processLinks_eq_filterMap⟩

/-- Witness for C4: on the short catalog the second page declares
range 3-4 but lists one link, so extraction aborts there; on the
consistent catalog the same page matches and the step reduces to the
serial processing of its two links. -/
theorem C4_link_count_check_witness :
    extractLoop envShort "b" 2024 4 5 2 [] =
      .abortedAt 2 (.linkCountMismatch 2 1) [] ∧
    extractLoop envTwoPages "b" 2024 4 5 2 [] =
      (if 4 ≥ 4 then
        ExtractOutcome.done 2 (processLinks envTwoPages ["b/db/3", "b/db/4"] [])
       else extractLoop envTwoPages "b" 2024 4 4 3
        (processLinks envTwoPages ["b/db/3", "b/db/4"] [])) :=
  ⟨C4_link_count_check.1 envShort "b" 2024 4 4 2 []
      (listingPage "showing occurrence 3-4 of 4 occurrences" ["/db/3"]) 3 4
      ["b/db/3"] (by decide) (by decide) (by decide) (by decide),
   C4_link_count_check.2.1 envTwoPages "b" 2024 4 4 2 []
      (listingPage "showing occurrence 3-4 of 4 occurrences" ["/db/3", "/db/4"]) 3 4
      ["b/db/3", "b/db/4"] (by decide) (by decide) (by decide) (by decide)⟩

/-- C6: during extraction, a page-level failure (fetching or analyzing
the listing page itself) aborts the whole crawl at that page -- no
further pages are processed -- yet the samples gathered before the
abort are kept and the final write after the loop still emits them.
Concretely, on the short catalog the crawl aborts on page 2 and
`scrape_year` still returns the two records extracted from page 1. -/
theorem C6_page_error_aborts_but_writes :
    (∀ (env : Env) (base : String) (year total fuel page : Nat)
        (samples : List AccidentRecord),
      env.listing page = .error () →
      extractLoop env base year total (fuel + 1) page samples =
        .abortedAt page .fetchFail samples) ∧
    (∀ (env : Env) (base : String) (year total fuel page : Nat)
        (samples : List AccidentRecord) (soup : ListingDOM) (e : PageError),
      env.listing page = .ok soup →
      get_page_info soup year page = .error e →
      extractLoop env base year total (fuel + 1) page samples =
        .abortedAt page (.pageErr e) samples) ∧
    (∀ (page : Nat) (err : StepError) (records : List AccidentRecord),
      (ExtractOutcome.abortedAt page err records).written = records) ∧
    extractLoop envShort "b" 2024 4 10 1 [] =
      .abortedAt 2 (.linkCountMismatch 2 1)
        [initDetails "b/db/1", initDetails "b/db/2"] ∧
    scrape_year envShort "b" 2024 true 10 =
      [initDetails "b/db/1", initDetails "b/db/2"] :=
  ⟨fun _ _ _ _ _ _ samples h => extract_fetch_fail samples h,
   fun _ _ _ _ _ _ samples _ _ h1 h2 => extract_info_fail samples h1 h2,
   fun _ _ _ => rfl,
   by decide, by decide⟩

/-- Witness for C6: the fetch-failure clause applied at page 2 of the
aborting catalog with the two page-1 records accumulated, and the
analyze-failure clause applied on the caption-less catalog. -/
theorem C6_page_error_aborts_but_writes_witness :
    extractLoop envAbort "b" 2024 4 5 2 [initDetails "b/db/1", initDetails "b/db/2"] =
      .abortedAt 2 .fetchFail [initDetails "b/db/1", initDetails "b/db/2"] ∧
    extractLoop envBadCaption "b" 2024 4 5 1 [] =
      .abortedAt 1 (.pageErr .captionNotFound) [] :=
  ⟨C6_page_error_aborts_but_writes.1 envAbort "b" 2024 4 4 2
      [initDetails "b/db/1", initDetails "b/db/2"] (by decide),
   C6_page_error_aborts_but_writes.2.1 envBadCaption "b" 2024 4 4 1 []
      ⟨some none, some []⟩ .captionNotFound (by decide) (by decide)⟩

/-- C7: during discovery, any error on any page -- a fetch failure, a
parse/validation failure inside `_get_page_info`, or a missing links
table -- aborts discovery with the failing page recorded, and a crawl
whose discovery failed returns the empty record set: no partial
discovery output is ever returned.  Concretely, a catalog whose first
page is fine but whose second page's fetch fails yields an empty
crawl. -/
theorem C7_discovery_error_empty :
    (∀ (env : Env) (base : String) (year fuel page : Nat) (total? : Option Nat)
        (counts : List Nat),
      env.listing page = .error () →
      discover env base year (fuel + 1) page total? counts =
        .failed page .fetchFail) ∧
    (∀ (env : Env) (base : String) (year fuel page : Nat) (total? : Option Nat)
        (counts : List Nat) (soup : ListingDOM) (e : PageError),
      env.listing page = .ok soup →
      get_page_info soup year page = .error e →
      discover env base year (fuel + 1) page total? counts =
        .failed page (.pageErr e)) ∧
    (∀ (env : Env) (base : String) (year fuel page : Nat) (total? : Option Nat)
        (counts : List Nat) (soup : ListingDOM) (pt s e : Nat) (err : PageError),
      env.listing page = .ok soup →
      get_page_info soup year page = .ok (pt, s, e) →
      total?.getD pt = pt →
      get_page_links base soup.hpTable = .error err →
      discover env base year (fuel + 1) page total? counts =
        .failed page (.pageErr err)) ∧
    (∀ (env : Env) (base : String) (year : Nat) (confirm : Bool) (fuel page : Nat)
        (err : StepError),
      discover env base year fuel 1 none [] = .failed page err →
      scrape_year env base year confirm fuel = []) ∧
    scrape_year envAbort "b" 2024 true 10 = [] :=
  ⟨fun _ _ _ _ _ total? counts h => discover_fetch_fail total? counts h,
   fun _ _ _ _ _ total? counts _ _ h1 h2 => discover_info_fail total? counts h1 h2,
   fun _ _ _ _ _ total? counts _ _ _ _ _ h1 h2 ht h3 =>
      discover_links_fail total? counts h1 h2 ht h3,
   fun _ _ _ confirm _ _ _ h => scrape_year_discovery_failed confirm h,
   by decide⟩

/-- Witness for C7: the fetch-failure clause applied at page 2 of the
aborting catalog, and the failed-discovery clause showing that crawl
returns no records. -/
theorem C7_discovery_error_empty_witness :
    discover envAbort "b" 2024 5 2 (some 4) [2] = .failed 2 .fetchFail ∧
    scrape_year envAbort "b" 2024 true 7 = [] :=
  ⟨C7_discovery_error_empty.1 envAbort "b" 2024 4 2 (some 4) [2] (by decide),
   C7_discovery_error_empty.2.2.2.1 envAbort "b" 2024 true 7 2 .fetchFail
      (by decide)⟩

/-- C5: during extraction a failing detail fetch is caught and
skipped: with exactly one failing link among a page's N links the
page contributes N-1 records, exactly that link is logged as failed,
the rest of the page is still processed, and the page step continues
to the next page exactly as it would have without the failure.
Concretely, with the first of four detail pages failing the crawl
still completes with the other three records. -/
theorem C5_detail_failure_skipped :
    (∀ (env : Env) (pre : List String) (link : String) (post : List String)
        (samples : List AccidentRecord),
      detailOk env link = false →
      (∀ l ∈ pre ++ post, detailOk env l = true) →
      (processLinks env (pre ++ link :: post) samples).length =
        samples.length + (pre ++ link :: post).length - 1 ∧
      detailFailures env (pre ++ link :: post) = [link]) ∧
    (∀ (env : Env) (base : String) (year total fuel page : Nat)
        (samples : List AccidentRecord) (soup : ListingDOM) (s e : Nat)
        (links : List String),
      env.listing page = .ok soup →
      get_page_info soup year page = .ok (total, s, e) →
      get_page_links base soup.hpTable = .ok links →
      links.length = min 100 (e - s + 1) →
      e < total →
      extractLoop env base year total (fuel + 1) page samples =
        extractLoop env base year total fuel (page + 1)
          (processLinks env links samples)) ∧
    extractLoop envOneFail "b" 2024 4 10 1 [] =
      .done 2 [initDetails "b/db/2", initDetails "b/db/3", initDetails "b/db/4"] ∧
    detailFailures envOneFail ["b/db/1", "b/db/2"] = ["b/db/1"] := by
  refine ⟨?_, ?_, by decide, by decide⟩
  · intro env pre link post samples hfail hok
    have hpre : ∀ l ∈ pre, detailOk env l = true := fun l hl => hok l (by simp [hl])
    have hpost : ∀ l ∈ post, detailOk env l = true := fun l hl => hok l (by simp [hl])
    constructor
    · rw [processLinks_length, List.countP_append, List.countP_cons]
      simp only [hfail, Bool.false_eq_true, if_false,
        countP_eq_length_of_all _ pre hpre, countP_eq_length_of_all _ post hpost,
        List.length_append, List.length_cons]
      omega
    · rw [detailFailures_append, detailFailures_of_all_ok env pre hpre,
        detailFailures_cons_fail env link post hfail,
        detailFailures_of_all_ok env post hpost]
      rfl
  · intro env base year total fuel page samples soup s e links h1 h2 h3 h4 h5
    rw [extract_step_ok samples h1 h2 h3 h4, if_neg (by omega)]

/-- Witness for C5: the skip clauses applied on the catalog whose
first detail link fails: its first page yields one of two records and
logs the one failure, and page processing continues to page 2. -/
theorem C5_detail_failure_skipped_witness :
    ((processLinks envOneFail ["b/db/1", "b/db/2"] []).length =
      ([] : List AccidentRecord).length +
        (["b/db/1", "b/db/2"] : List String).length - 1 ∧
      detailFailures envOneFail ["b/db/1", "b/db/2"] = ["b/db/1"]) ∧
    extractLoop envOneFail "b" 2024 4 5 1 [] =
      extractLoop envOneFail "b" 2024 4 4 2
        (processLinks envOneFail ["b/db/1", "b/db/2"] []) :=
  ⟨C5_detail_failure_skipped.1 envOneFail [] "b/db/1" ["b/db/2"] []
      (by decide) (by decide),
   C5_detail_failure_skipped.2.1 envOneFail "b" 2024 4 4 1 []
      (listingPage "showing occurrence 1-2 of 4 occurrences" ["/db/1", "/db/2"]) 1 2
      ["b/db/1", "b/db/2"] (by decide) (by decide) (by decide) (by decide)
      (by decide)⟩

/-- Counterexample to C8 as stated: the `URL` key is one of the fixed
fields of the record, and a record whose detail page has no tables at
all -- so no field is ever encountered in any row -- still carries the
non-empty source URL in its `URL` field rather than the empty string. -/
theorem C8_unencountered_field_counterexample :
    "URL" ∈ fieldNames ∧
    (extract_accident_details "https://asn.example/db/2024/1" ⟨[]⟩).lookup "URL" =
      some "https://asn.example/db/2024/1" ∧
    (extract_accident_details "https://asn.example/db/2024/1" ⟨[]⟩).lookup "URL" ≠
      some "" := by
  decide

/-- C8 (amended: every field other than `URL`): a two-or-more-cell row
whose first cell's stripped, colon-stripped text is a known key sets
that field to the second cell's stripped text (shown for the claim's
`("Date:", v)` example); a row whose key is not among the record's
keys changes nothing; every field other than `URL` that is never
keyed by any row of the first table stays the empty string; and
extraction always returns a record with the full fixed field set. -/
theorem C8_detail_row_extraction :
    (∀ (details : AccidentRecord) (v : String) (rest : List String),
      details.any (fun kv => kv.1 == "Date") = true →
      (applyRow details ("Date:" :: v :: rest)).lookup "Date" = some (pyStrip v)) ∧
    (∀ (details : AccidentRecord) (c0 c1 : String) (rest : List String),
      details.any (fun kv => kv.1 == rstripColon (pyStrip c0)) = false →
      applyRow details (c0 :: c1 :: rest) = details) ∧
    (∀ (url : String) (dom : DetailDOM) (name : String),
      name ∈ fieldNames → name ≠ "URL" →
      (∀ cells ∈ dom.tables.head?.getD [], rowKey cells ≠ some name) →
      (extract_accident_details url dom).lookup name = some "") ∧
    (∀ (url : String) (dom : DetailDOM),
      (extract_accident_details url dom).map Prod.fst = fieldNames) := by
  refine ⟨?_, ?_, ?_, extract_keys⟩
  · intro details v rest h
    have hkey : rstripColon (pyStrip "Date:") = "Date" := by decide
    show (setField details (rstripColon (pyStrip "Date:")) (pyStrip v)).lookup "Date" =
      some (pyStrip v)
    rw [hkey]
    exact setField_lookup_self details "Date" (pyStrip v) h
  · intro details c0 c1 rest h
    exact setField_unknown details (rstripColon (pyStrip c0)) (pyStrip c1) h
  · intro url dom name hmem hurl hnone
    rw [extract_lookup_of_not_keyed url dom name hnone]
    exact initDetails_lookup_data url name hmem hurl

/-- Witness for C8: a `("Date:", " 2024-01-05 ")` row sets `Date` to
the stripped value, an unknown key leaves the record untouched, and a
detail page keying only `Type` leaves `Date` empty. -/
theorem C8_detail_row_extraction_witness :
    (applyRow (initDetails "u") ("Date:" :: " 2024-01-05 " :: [])).lookup "Date" =
      some (pyStrip " 2024-01-05 ") ∧
    applyRow (initDetails "u") ("Bogus key:" :: "zzz" :: []) = initDetails "u" ∧
    (extract_accident_details "u" ⟨[[["Type:", "C172"]]]⟩).lookup "Date" = some "" :=
  ⟨C8_detail_row_extraction.1 (initDetails "u") " 2024-01-05 " [] (by decide),
   C8_detail_row_extraction.2.1 (initDetails "u") "Bogus key:" "zzz" [] (by decide),
   C8_detail_row_extraction.2.2.1 "u" ⟨[[["Type:", "C172"]]]⟩ "Date" (by decide)
      (by decide) (by decide)⟩

/-- Counterexample to C9 as stated: `"URL"` is itself one of the known
dict keys, so a detail page whose first table contains a `URL:` row
overwrites the record's URL field with the page's own cell text, and
the returned record no longer carries the source URL it was called
with. -/
theorem C9_url_overwritten_counterexample :
    (extract_accident_details "https://asn.example/db/2024/1"
        ⟨[[["URL:", "https://evil.example/other"]]]⟩).lookup "URL" =
      some "https://evil.example/other" ∧
    (extract_accident_details "https://asn.example/db/2024/1"
        ⟨[[["URL:", "https://evil.example/other"]]]⟩).lookup "URL" ≠
      some "https://asn.example/db/2024/1" := by
  decide

/-- C9 (amended): the returned record's `URL` field equals the source
URL argument provided no two-or-more-cell row of the first table keys
the field `URL`; real listing detail tables do not, but the guarantee
is conditional, not unconditional as claimed. -/
theorem C9_url_is_source_url (url : String) (dom : DetailDOM)
    (h : ∀ cells ∈ dom.tables.head?.getD [], rowKey cells ≠ some "URL") :
    (extract_accident_details url dom).lookup "URL" = some url := by
  rw [extract_lookup_of_not_keyed url dom "URL" h]
  exact initDetails_lookup_url url

/-- Witness for C9: a detail page with an ordinary `Date` row keeps
the source URL as the record's URL field. -/
theorem C9_url_is_source_url_witness :
    (extract_accident_details "https://asn.example/db/2024/1"
        ⟨[[["Date:", "5 JAN 2024"]]]⟩).lookup "URL" =
      some "https://asn.example/db/2024/1" :=
  C9_url_is_source_url "https://asn.example/db/2024/1"
    ⟨[[["Date:", "5 JAN 2024"]]]⟩ (by decide)

/-- Counterexample to C2 as stated: the bare first-page caption
`"0 occurrences"` parses to total 0, so the claimed return value would
be `(0, 1, min 100 0) = (0, 1, 0)`, but the range validation
`1 <= 1 <= 0 <= 0` fails and the analyzer raises the ValidationError
instead of returning. -/
theorem C2_caption_counterexample :
    findTotal (bareCaption 0).data = some 0 ∧
    findRange (bareCaption 0).data = none ∧
    get_page_info ⟨some (some (bareCaption 0)), some []⟩ 2024 1 =
      .error .invalidRange ∧
    get_page_info ⟨some (some (bareCaption 0)), some []⟩ 2024 1 ≠
      .ok (0, 1, min 100 0) := by
  decide

/-- C2 (amended: valid values only): for captions of the form
`"showing occurrence A-B of N occurrences"` with `1 ≤ A ≤ B ≤ N`, the
analyzer returns exactly `(N, A, B)`; for bare first-page captions
`"N occurrences"` with `N ≥ 1` it returns `(N, 1, min 100 N)`; a page
missing the content wrapper or the caption anchor, or whose caption
text has no total match (hence matches neither shape), fails with the
corresponding ParseError; triples violating `1 ≤ A ≤ B ≤ N` instead
fail with the ValidationError (see C3). -/
theorem C2_caption_analysis :
    (∀ (tbl : Option (List (Option String))) (year page a b n : Nat),
      1 ≤ a → a ≤ b → b ≤ n →
      get_page_info ⟨some (some (rangeCaption a b n)), tbl⟩ year page =
        .ok (n, a, b)) ∧
    (∀ (tbl : Option (List (Option String))) (year page n : Nat),
      1 ≤ n →
      get_page_info ⟨some (some (bareCaption n)), tbl⟩ year page =
        .ok (n, 1, min 100 n)) ∧
    (∀ (tbl : Option (List (Option String))) (year page : Nat),
      get_page_info ⟨none, tbl⟩ year page = .error .contentNotFound ∧
      get_page_info ⟨some none, tbl⟩ year page = .error .captionNotFound) ∧
    (∀ (tbl : Option (List (Option String))) (year page : Nat) (text : String),
      findTotal text.data = none →
      get_page_info ⟨some (some text), tbl⟩ year page = .error .totalNotFound) ∧
    (PageError.contentNotFound.isParse = true ∧
      PageError.captionNotFound.isParse = true ∧
      PageError.totalNotFound.isParse = true) :=
  ⟨fun tbl year page a b n h1 h2 h3 =>
      get_page_info_rangeCaption tbl year page a b n h1 h2 h3,
   fun tbl year page n h => get_page_info_bareCaption tbl year page n h,
   fun tbl year page =>
      ⟨get_page_info_no_content tbl year page, get_page_info_no_caption tbl year page⟩,
   fun tbl year page text h => get_page_info_no_total tbl year page text h,
   by decide⟩

/-- Witness for C2: the range caption with (A,B,N) = (2,3,10) returns
(10,2,3), the bare caption with N = 7 returns (7,1,7), and a caption
with no occurrences count is a ParseError. -/
theorem C2_caption_analysis_witness :
    get_page_info ⟨some (some (rangeCaption 2 3 10)), some []⟩ 2024 1 =
      .ok (10, 2, 3) ∧
    get_page_info ⟨some (some (bareCaption 7)), some []⟩ 2024 1 =
      .ok (7, 1, min 100 7) ∧
    get_page_info ⟨some (some "database error"), some []⟩ 2024 1 =
      .error .totalNotFound :=
  ⟨C2_caption_analysis.1 (some []) 2024 1 2 3 10 (by norm_num) (by norm_num)
      (by norm_num),
   C2_caption_analysis.2.1 (some []) 2024 1 7 (by norm_num),
   C2_caption_analysis.2.2.2.1 (some []) 2024 1 "database error" (by decide)⟩

/-- C3: whenever the parsed values (A, B, N) -- the explicit range when
the caption shows one, or the first-page fallback (1, min 100 N) --
violate `1 ≤ A ≤ B ≤ N`, page analysis fails with the ValidationError
`invalidRange` (not a ParseError) and returns no page info. -/
theorem C3_invalid_range_fails (tbl : Option (List (Option String)))
    (year page : Nat) (text : String) (n a b : Nat)
    (htotal : findTotal text.data = some n)
    (hrange : findRange text.data = some (a, b) ∨
      (findRange text.data = none ∧ a = 1 ∧ b = min 100 n))
    (hbad : ¬ (1 ≤ a ∧ a ≤ b ∧ b ≤ n)) :
    get_page_info ⟨some (some text), tbl⟩ year page = .error .invalidRange ∧
    PageError.invalidRange.isParse = false :=
  ⟨get_page_info_invalid tbl year page text n a b htotal hrange hbad, rfl⟩

/-- Witness for C3: the caption claiming occurrences 5-3 of 10 (start
above end) fails validation. -/
theorem C3_invalid_range_fails_witness :
    get_page_info ⟨some (some "showing occurrence 5-3 of 10 occurrences"), some []⟩
        2024 1 = .error .invalidRange ∧
    PageError.invalidRange.isParse = false :=
  C3_invalid_range_fails (some []) 2024 1 "showing occurrence 5-3 of 10 occurrences"
    10 5 3 (by decide) (Or.inl (by decide)) (by decide)
